import Mathlib

/-!
Verification of the `idena_api` RPC client core (src/src/lib.rs).

The development embeds the request dispatch pipeline of the library:
the `IdenaAPI` client state, the `request` dispatch primitive, the
`set_api_key` mutator, and the four typed convenience methods
(`identities`, `identity`, `balance`, `send`).  JSON values are a tagged
variant `Value`; the HTTP transport is an explicit function parameter
`String → Value → Except String Value` standing for the reqwest round trip (post
the payload, receive the decoded body, or fail at the transport level).
-/

namespace IdenaApi

/-- JSON values, mirroring `serde_json::Value`.  Numbers are carried as
integers: every number appearing in the envelopes or in the claims is
integral, and the client never computes with numeric payloads, it only
passes them through. -/
inductive Value where
  | null : Value
  | bool (b : Bool) : Value
  | num (n : Int) : Value
  | str (s : String) : Value
  | arr (elems : List Value) : Value
  | obj (fields : List (String × Value)) : Value
deriving Repr

/-- Field lookup in a decoded object, first match wins (serde maps have
unique keys, so the first match is the only one). -/
def findField : List (String × Value) → String → Value
  | [], _ => .null
  | (k, v) :: fs, key => if k = key then v else findField fs key

/-- The `response[key]` indexing used by `request`: `serde_json::Value`
indexed by a string key returns the field value when the receiver is an
object holding the key, and `Value::Null` otherwise (missing key or
non-object receiver). -/
def Value.index : Value → String → Value
  | .obj fs, key => findField fs key
  | _, _ => .null

/-- Tests whether a value is `Value::Null`; `response["error"] != Value::Null`
in the source is exactly the negation of this. -/
def Value.isNull : Value → Bool
  | .null => true
  | _ => false

/-- Tests whether a value is a JSON object. -/
def Value.isObj : Value → Bool
  | .obj _ => true
  | _ => false

/-- Escape of a single character inside a JSON string literal, as
`serde_json` serialization performs it for the characters that can occur
in the payloads at hand. -/
def escapeChar (c : Char) : String :=
  if c = '"' then "\\\""
  else if c = '\\' then "\\\\"
  else if c = '\n' then "\\n"
  else if c = '\t' then "\\t"
  else if c = '\r' then "\\r"
  else String.singleton c

/-- Escape of a full string for inclusion in a JSON literal. -/
def escapeString (s : String) : String :=
  String.join (s.data.map escapeChar)

mutual
/-- Compact JSON serialization, mirroring `serde_json`'s `to_string` as the
source applies it to `response["error"]`.  Object fields print in the
order the decoded value carries them. -/
def Value.toStr : Value → String
  | .null => "null"
  | .bool true => "true"
  | .bool false => "false"
  | .num n => toString n
  | .str s => "\"" ++ escapeString s ++ "\""
  | .arr xs => "[" ++ arrStr xs ++ "]"
  | .obj fs => "\x7b" ++ objStr fs ++ "\x7d"

/-- Comma-separated serialization of array elements. -/
def arrStr : List Value → String
  | [] => ""
  | [x] => x.toStr
  | x :: y :: xs => x.toStr ++ "," ++ arrStr (y :: xs)

/-- Comma-separated serialization of object fields. -/
def objStr : List (String × Value) → String
  | [] => ""
  | [(k, v)] => "\"" ++ escapeString k ++ "\":" ++ v.toStr
  | (k, v) :: f :: fs =>
      "\"" ++ escapeString k ++ "\":" ++ v.toStr ++ "," ++ objStr (f :: fs)
end

/-- The error type of the library.  `lib.rs` uses the `NodeError(String)`
variant directly (built from `response["error"].to_string()`).  The
variant for transport failures lives in `src/error.rs`, which is not
present in the sources; it is

Modelled from the spec: "TransportError — network failure, timeout,
non-JSON or unparseable body, or an HTTP status indicating failure at the
adapter level.  Not retried by the core; surfaced verbatim to the caller
with whatever diagnostic detail the adapter provides."  The `?` operator
in `request` converts the reqwest error into this variant. -/
inductive IdenaError where
  | NodeError (errorJson : String) : IdenaError
  | HttpError (details : String) : IdenaError
deriving Repr, DecidableEq

/-- The client state: the API key and the host URL.  The third field of
the Rust struct, the `reqwest::Client`, carries no claim-relevant state
(it is an opaque connection pool) and is represented by the explicit
transport parameter of the operations instead. -/
structure IdenaAPI where
  api_key : String
  host_url : String
deriving Repr, DecidableEq

/-- Constructor `IdenaAPI::new`. -/
def IdenaAPI.new (api_key : String) (host_url : String) : IdenaAPI :=
  { api_key := api_key, host_url := host_url }

/-- Mutator `IdenaAPI::set_api_key`: replaces the stored API key; the
`&mut self` receiver is embedded as returning the updated client. -/
def IdenaAPI.set_api_key (self : IdenaAPI) (new_key : String) : IdenaAPI :=
  { self with api_key := new_key }

/-- The dispatch primitive `IdenaAPI::request`.  The transport parameter
stands for the reqwest POST (`self.client.post(&self.host_url).json(&payload)
.send().await?.json().await?`): given the target URL and the payload it
yields the decoded response body or a transport-level failure.  A failure
propagates through `?` as the transport variant of `IdenaError` without
any inspection of a response.  On a decoded response, the source checks
`response["error"] != Value::Null` and fails with
`NodeError(response["error"].to_string())`, otherwise succeeds with
`response["result"].clone()`. -/
def IdenaAPI.request (self : IdenaAPI) (payload : Value)
    (transport : String → Value → Except String Value) :
    Except IdenaError Value :=
  match transport self.host_url payload with
  | .error e => .error (.HttpError e)
  | .ok response =>
      if (response.index "error").isNull then
        .ok (response.index "result")
      else
        .error (.NodeError (response.index "error").toStr)

/-- The envelope `identities` hands to `request`, produced by
`do_request!` / `json!`. -/
def identitiesPayload (self : IdenaAPI) : Value :=
  .obj [("key", .str self.api_key), ("id", .num 1),
        ("method", .str "dna_identities")]

/-- Convenience method `IdenaAPI::identities`. -/
def IdenaAPI.identities (self : IdenaAPI)
    (transport : String → Value → Except String Value) :
    Except IdenaError Value :=
  self.request (identitiesPayload self) transport

/-- The envelope `identity` hands to `request`. -/
def identityPayload (self : IdenaAPI) (address : String) : Value :=
  .obj [("key", .str self.api_key), ("id", .num 1),
        ("method", .str "dna_identity"),
        ("params", .arr [.str address])]

/-- Convenience method `IdenaAPI::identity`. -/
def IdenaAPI.identity (self : IdenaAPI) (address : String)
    (transport : String → Value → Except String Value) :
    Except IdenaError Value :=
  self.request (identityPayload self address) transport

/-- The envelope `balance` hands to `request`. -/
def balancePayload (self : IdenaAPI) (address : String) : Value :=
  .obj [("key", .str self.api_key), ("id", .num 1),
        ("method", .str "dna_getBalance"),
        ("params", .arr [.str address])]

/-- Convenience method `IdenaAPI::balance`. -/
def IdenaAPI.balance (self : IdenaAPI) (address : String)
    (transport : String → Value → Except String Value) :
    Except IdenaError Value :=
  self.request (balancePayload self address) transport

/-- The envelope `send` hands to `request`.  The `amount` parameter is an
`f64` in the source; it is carried through into the params object without
any arithmetic, so it is embedded by its numeric payload. -/
def sendPayload (self : IdenaAPI) (from_address to_address : String)
    (amount : Int) : Value :=
  .obj [("key", .str self.api_key), ("id", .num 1),
        ("method", .str "dna_sendTransaction"),
        ("params", .arr [.obj [("from", .str from_address),
                               ("to", .str to_address),
                               ("amount", .num amount)]])]

/-- Convenience method `IdenaAPI::send`. -/
def IdenaAPI.send (self : IdenaAPI) (from_address to_address : String)
    (amount : Int) (transport : String → Value → Except String Value) :
    Except IdenaError Value :=
  self.request (sendPayload self from_address to_address amount) transport

/-- The operations the client exposes, as a small command type used to
state frame properties over sequences of calls. -/
inductive Op where
  | setApiKey (new_key : String) : Op
  | identitiesOp : Op
  | identityOp (address : String) : Op
  | balanceOp (address : String) : Op
  | sendOp (from_address to_address : String) (amount : Int) : Op
  | requestOp (payload : Value) : Op
deriving Repr

/-- Whether an operation is the key mutator. -/
def Op.isSetKey : Op → Bool
  | .setApiKey _ => true
  | _ => false

/-- State transition of one operation on the client.  `set_api_key` takes
`&mut self` and updates the stored key; every other method takes the
client by shared reference `&self` and the struct has no interior
mutability over `api_key` or `host_url`, so the post-state of those calls
is the pre-state. -/
def run (op : Op) (c : IdenaAPI) : IdenaAPI :=
  match op with
  | .setApiKey k => c.set_api_key k
  | _ => c

/-- Claim C1 fails on the code: for the response `\x7b\x7d` (neither a
`result` nor an `error` field) `request` returns the success value
`Value.null` instead of failing with a non-Remote error. -/
theorem C1_counterexample :
    (IdenaAPI.new "k" "http://localhost:9119/").request (Value.obj [])
      (fun _ _ => .ok (.obj [])) = .ok Value.null := rfl

/-- Claim C1, amended: for every decoded response in which both the
`error` and `result` lookups are null (in particular a response that
contains neither field, such as the empty object), `request` succeeds
with the value null; it does not fail. -/
theorem C1_neither_field (c : IdenaAPI) (payload : Value) (resp : Value)
    (herr : resp.index "error" = .null)
    (hres : resp.index "result" = .null) :
    c.request payload (fun _ _ => .ok resp) = .ok Value.null := by
  simp [IdenaAPI.request, herr, hres, Value.isNull]

/-- Witness for C1_neither_field at the empty-object response. -/
theorem C1_neither_field_witness :
    (Value.obj []).index "error" = .null ∧
    (Value.obj []).index "result" = .null ∧
    (IdenaAPI.new "k" "u").request (Value.obj [])
      (fun _ _ => .ok (.obj [])) = .ok Value.null :=
  ⟨rfl, rfl, C1_neither_field _ _ _ rfl rfl⟩

/-- Claim C2: for every decoded response whose `error` lookup is null and
whose `result` lookup is `R` (in particular a response of the shape with
a single `result` field, including `R = null`), `request` succeeds with
exactly `R`. -/
theorem C2_result_success (c : IdenaAPI) (payload : Value)
    (resp : Value) (R : Value)
    (herr : resp.index "error" = .null)
    (hres : resp.index "result" = R) :
    c.request payload (fun _ _ => .ok resp) = .ok R := by
  simp [IdenaAPI.request, herr, hres, Value.isNull]

/-- Witness for C2_result_success: the response carrying only
`result = "123.45"` yields the success value `"123.45"`. -/
theorem C2_result_success_witness :
    (Value.obj [("result", .str "123.45")]).index "error" = .null ∧
    (Value.obj [("result", .str "123.45")]).index "result" = .str "123.45" ∧
    (IdenaAPI.new "k" "u").request
      (balancePayload (IdenaAPI.new "k" "u") "0xABC")
      (fun _ _ => .ok (.obj [("result", .str "123.45")])) =
      .ok (.str "123.45") :=
  ⟨rfl, rfl, C2_result_success _ _ _ _ rfl rfl⟩

/-- Claim C3: for every decoded response of the shape with a single
non-null `error` field `E`, `request` fails with `NodeError` carrying the
serialization of `E` (built from `E` alone, with no interpretation of
remote error codes or messages). -/
theorem C3_error_remote (c : IdenaAPI) (payload : Value) (E : Value)
    (hE : E.isNull = false) :
    c.request payload (fun _ _ => .ok (.obj [("error", E)])) =
      .error (.NodeError E.toStr) := by
  simp [IdenaAPI.request, Value.index, findField, hE]

/-- Witness for C3_error_remote at the insufficient-funds error object;
the serialized payload is surfaced verbatim. -/
theorem C3_error_remote_witness :
    Value.isNull (.obj [("code", .num (-32000)),
                        ("message", .str "insufficient funds")]) = false ∧
    (IdenaAPI.new "k" "u").request
      (sendPayload (IdenaAPI.new "k" "u") "0xA" "0xB" 5)
      (fun _ _ => .ok (.obj [("error",
        .obj [("code", .num (-32000)),
              ("message", .str "insufficient funds")])])) =
      .error (.NodeError
        "\x7b\"code\":-32000,\"message\":\"insufficient funds\"\x7d") :=
  ⟨rfl, C3_error_remote _ _ _ rfl⟩

/-- Claim C4: every convenience-method envelope carries exactly the API
key stored in the client at the moment the envelope is built, the fixed
request id 1 and the fixed method name; an envelope built before
`set_api_key` carries the old key and one built after carries the new
key, so a secret set after envelope construction does not affect that
call. -/
theorem C4_envelope_current_secret (c : IdenaAPI) (a f t : String)
    (amt : Int) (new_key : String) :
    ((identitiesPayload c).index "key" = .str c.api_key ∧
     (identityPayload c a).index "key" = .str c.api_key ∧
     (balancePayload c a).index "key" = .str c.api_key ∧
     (sendPayload c f t amt).index "key" = .str c.api_key) ∧
    ((identitiesPayload c).index "id" = .num 1 ∧
     (identityPayload c a).index "id" = .num 1 ∧
     (balancePayload c a).index "id" = .num 1 ∧
     (sendPayload c f t amt).index "id" = .num 1) ∧
    ((identitiesPayload c).index "method" = .str "dna_identities" ∧
     (identityPayload c a).index "method" = .str "dna_identity" ∧
     (balancePayload c a).index "method" = .str "dna_getBalance" ∧
     (sendPayload c f t amt).index "method" = .str "dna_sendTransaction") ∧
    ((identityPayload (c.set_api_key new_key) a).index "key" =
       .str new_key ∧
     (identityPayload c a).index "key" = .str c.api_key) :=
  ⟨⟨rfl, rfl, rfl, rfl⟩, ⟨rfl, rfl, rfl, rfl⟩,
   ⟨rfl, rfl, rfl, rfl⟩, rfl, rfl⟩

/-- Claim C5: a transport failure propagates as the transport variant of
the error with the adapter detail unmodified; no response classification
happens, so neither a `NodeError` nor a success value is ever produced
from a failed exchange. -/
theorem C5_transport_failure (c : IdenaAPI) (payload : Value) (e : String) :
    c.request payload (fun _ _ => .error e) = .error (.HttpError e) ∧
    (∀ s, c.request payload (fun _ _ => .error e) ≠
      .error (.NodeError s)) ∧
    (∀ R, c.request payload (fun _ _ => .error e) ≠ .ok R) := by
  refine ⟨rfl, ?_, ?_⟩ <;> simp [IdenaAPI.request]

/-- Claim C6 fails on the code: for a response carrying both a non-null
`result` and a non-null `error`, `request` fails with `NodeError` (the
RemoteError kind); the error type has no ProtocolViolation variant at
all. -/
theorem C6_counterexample :
    (IdenaAPI.new "k" "u").request (Value.obj [])
      (fun _ _ => .ok (.obj [("result", .num 1), ("error", .num 2)])) =
      .error (.NodeError "2") := rfl

/-- Claim C6, amended: for every decoded response whose `error` lookup is
a non-null `E` — in particular one that also carries a non-null `result`
— `request` fails with `NodeError` carrying the serialization of `E`: the
error field takes precedence and no success value is produced. -/
theorem C6_both_fields (c : IdenaAPI) (payload : Value) (resp E : Value)
    (herr : resp.index "error" = E) (hE : E.isNull = false)
    (_hres : (resp.index "result").isNull = false) :
    c.request payload (fun _ _ => .ok resp) =
      .error (.NodeError E.toStr) := by
  simp [IdenaAPI.request, herr, hE]

/-- Witness for C6_both_fields at a response with both fields non-null. -/
theorem C6_both_fields_witness :
    (Value.obj [("result", .num 1), ("error", .num 2)]).index "error" =
      .num 2 ∧
    Value.isNull (.num 2) = false ∧
    Value.isNull ((Value.obj [("result", .num 1),
      ("error", .num 2)]).index "result") = false ∧
    (IdenaAPI.new "k" "u").request (Value.obj [])
      (fun _ _ => .ok (.obj [("result", .num 1), ("error", .num 2)])) =
      .error (.NodeError "2") :=
  ⟨rfl, rfl, rfl, C6_both_fields _ _ _ _ rfl rfl rfl⟩

/-- Claim C7: `set_api_key` replaces the stored key unconditionally with
the new value, never fails, leaves the host URL unchanged — indeed no
operation at all mutates the host URL — and a call issued after the
mutator returns carries the new key in its envelope. -/
theorem C7_set_api_key_effect (c : IdenaAPI) (k a : String) (op : Op) :
    (c.set_api_key k).api_key = k ∧
    (c.set_api_key k).host_url = c.host_url ∧
    (run op c).host_url = c.host_url ∧
    (balancePayload (c.set_api_key k) a).index "key" = .str k := by
  refine ⟨rfl, rfl, ?_, rfl⟩
  cases op <;> rfl

/-- Claim C8: the four typed convenience methods exist, each forwards to
the `request` primitive with its fixed method name and its arguments as
the params sequence: `identities` with no params and method
`dna_identities`, `identity` and `balance` with params `[address]` and
methods `dna_identity` and `dna_getBalance`, and `send` with method
`dna_sendTransaction`. -/
theorem C8_convenience_methods (c : IdenaAPI)
    (tr : String → Value → Except String Value) (a f t : String) (amt : Int) :
    (c.identities tr = c.request (identitiesPayload c) tr ∧
      (identitiesPayload c).index "method" = .str "dna_identities" ∧
      (identitiesPayload c).index "params" = .null) ∧
    (c.identity a tr = c.request (identityPayload c a) tr ∧
      (identityPayload c a).index "method" = .str "dna_identity" ∧
      (identityPayload c a).index "params" = .arr [.str a]) ∧
    (c.balance a tr = c.request (balancePayload c a) tr ∧
      (balancePayload c a).index "method" = .str "dna_getBalance" ∧
      (balancePayload c a).index "params" = .arr [.str a]) ∧
    (c.send f t amt tr = c.request (sendPayload c f t amt) tr ∧
      (sendPayload c f t amt).index "method" =
        .str "dna_sendTransaction" ∧
      (sendPayload c f t amt).index "params" =
        .arr [.obj [("from", .str f), ("to", .str t),
                    ("amount", .num amt)]]) :=
  ⟨⟨rfl, rfl, rfl⟩, ⟨rfl, rfl, rfl⟩, ⟨rfl, rfl, rfl⟩, ⟨rfl, rfl, rfl⟩⟩

/-- Claim C9: every operation other than `set_api_key` leaves the client
state — the stored `api_key` and `host_url` — exactly as it was before
the call, successful or failed; those methods take the client by shared
reference. -/
theorem C9_frame (c : IdenaAPI) (op : Op) (h : op.isSetKey = false) :
    run op c = c := by
  cases op <;> first | rfl | simp [Op.isSetKey] at h

/-- Witness for C9_frame at a balance call. -/
theorem C9_frame_witness :
    Op.isSetKey (.balanceOp "0xABC") = false ∧
    run (.balanceOp "0xABC") (IdenaAPI.new "k" "u") = IdenaAPI.new "k" "u" :=
  ⟨rfl, C9_frame _ _ rfl⟩

/-- Claim C10: for every decoded response body that is not a JSON object
(a string, number, boolean, array, or null), both field lookups give
null, so `request` returns the success value null rather than any
error. -/
theorem C10_nonobject_success (c : IdenaAPI) (payload : Value) (v : Value)
    (h : v.isObj = false) :
    c.request payload (fun _ _ => .ok v) = .ok Value.null := by
  cases v <;>
    simp_all [IdenaAPI.request, Value.index, Value.isNull, Value.isObj]

/-- Witness for C10_nonobject_success at a bare string body. -/
theorem C10_nonobject_success_witness :
    Value.isObj (.str "hi") = false ∧
    (IdenaAPI.new "k" "u").request (Value.obj [])
      (fun _ _ => .ok (.str "hi")) = .ok Value.null :=
  ⟨rfl, C10_nonobject_success _ _ _ rfl⟩

end IdenaApi
